import Mathlib

/-!
Shallow embedding of `src/main.py`: a Streamlit app that logs skill-practice
sessions to `data/progress_logs.csv` through pandas and renders aggregate
views (weekly hours, per-skill totals, daily totals, monthly resample,
counts).

Modelling conventions, matching the behaviour of the Python runtime and the
pandas library the source uses:

* A pandas `Timestamp` is an integer count of nanoseconds since 1970-01-01
  (`nsPerDay` nanoseconds per day).  A CSV `Date` cell holds `YYYY-MM-DD`
  and `pd.to_datetime` parses it to the midnight Timestamp of that day.
  `Timestamp.weekday()` is Monday=0 .. Sunday=6 of the *date* part, and
  `timedelta(days=k)` adds `k * nsPerDay`, so `get_week_range` keeps the
  time-of-day of its argument (the source does not normalize it).
* `Hours Practiced` is an IEEE double in the source; it is modelled as `ℚ`.
  Every hour value appearing in the claims is a small dyadic, on which
  double arithmetic (sums, comparisons, text round-trip) is exact.
* A CSV text cell is a `String`.  `pandas.read_csv` turns an empty cell —
  and any of its default `na_values` sentinels such as `NA`, `N/A`, `None`,
  `null`, `NaN` — into NaN; a loaded text field is therefore `Option String`
  with `none` for NaN (the source itself guards `Additional Comments` with
  `pd.notna`, line 350).  `to_csv` writes both the empty string and NaN as
  an empty cell.  `read_csv` additionally infers an int/float/bool dtype for
  a text column whose non-NA cells are all numeric/bool tokens; this
  embedding keeps text columns as `Option String`, and every theorem about
  loading carries `textSafe`/`rowSafe` hypotheses confining it to files on
  which no text column can trigger that inference — the domain where the
  embedding is exact.
* The mutable state of the program is the CSV file plus the Streamlit
  session value `st.session_state.names_list`; both live in `StoreState`
  and are passed explicitly.  `pd.Timestamp.now()` is passed in as the
  parameter `now`.
-/

namespace LogProgress

/-- Nanoseconds in one day (pandas Timestamps are nanosecond counts). -/
def nsPerDay : Int := 86400000000000

/-- Count of days from 1970-01-01 to the civil date `y-m-d` (proleptic
Gregorian calendar; on valid dates with `y ≥ 1` every intermediate division
has nonnegative operands, so Euclidean division is exact here). -/
def days_from_civil (y m d : Int) : Int :=
  let y2 := if m ≤ 2 then y - 1 else y
  let era := y2 / 400
  let yoe := y2 - era * 400
  let doy := (153 * (if m > 2 then m - 3 else m + 9) + 2) / 5 + d - 1
  let doe := yoe * 365 + yoe / 4 - yoe / 100 + doy
  era * 146097 + doe - 719468

/-- Inverse of `days_from_civil`: the civil date `(y, m, d)` of a day
count. -/
def civil_from_days (z : Int) : Int × Int × Int :=
  let z2 := z + 719468
  let era := z2 / 146097
  let doe := z2 - era * 146097
  let yoe := (doe - doe / 1460 + doe / 36524 - doe / 146096) / 365
  let y := yoe + era * 400
  let doy := doe - (365 * yoe + yoe / 4 - yoe / 100)
  let mp := (5 * doy + 2) / 153
  let d := doy - (153 * mp + 2) / 5 + 1
  let m := if mp < 10 then mp + 3 else mp - 9
  (if m ≤ 2 then y + 1 else y, m, d)

/-- Midnight Timestamp (nanoseconds) of the civil date `y-m-d`: the value
`pd.to_datetime` produces for the stored `YYYY-MM-DD` cell. -/
def dateTs (y m d : Int) : Int := days_from_civil y m d * nsPerDay

/-- Date part of a Timestamp, as a day count (floor for the positive
divisor `nsPerDay`, exactly as pandas truncates to the date). -/
def dayOf (ts : Int) : Int := ts / nsPerDay

/-- Python `Timestamp.weekday()`: Monday = 0 .. Sunday = 6 of the date
part.  1970-01-01 (day 0) was a Thursday (= 3). -/
def pyWeekday (ts : Int) : Int := (dayOf ts + 3) % 7

/-- Calendar-month index of the date part of a Timestamp
(`year * 12 + month - 1`); two Timestamps get the same index exactly when
they fall in the same calendar month, so this is a faithful relabelling of
the month-end bin labels pandas `resample('M')` uses. -/
def monthOf (ts : Int) : Int :=
  let c := civil_from_days (dayOf ts)
  c.1 * 12 + c.2.1 - 1

/-! ## Data model -/

/-- The data submitted through the form (`entry_data` dict, lines 211-220):
all text fields are in-memory Python strings at this point, `date` comes
from `st.date_input` (a calendar date, stored as its day count) and
`hours` from `st.number_input` (0.0 ≤ hours ≤ 24.0). -/
structure EntryData where
  name : String
  date : Int
  skillFocus : String
  hoursPracticed : ℚ
  progressDescription : String
  challengesFaced : String
  commitmentCheck : String
  additionalComments : String
deriving DecidableEq

/-- One CSV record (below the header).  `date` is the day count encoded in
the `Date` cell (`YYYY-MM-DD`, bijective with the cell text) and
`hoursPracticed` the number in the `Hours Practiced` cell (decimal text of
a double round-trips exactly); the six text columns are kept as raw cell
strings, an empty cell being `""`. -/
structure FileRow where
  name : String
  date : Int
  skillFocus : String
  hoursPracticed : ℚ
  progressDescription : String
  challengesFaced : String
  commitmentCheck : String
  additionalComments : String
deriving DecidableEq

/-- A row of the loaded DataFrame: text cells parsed by `read_csv` (empty
cell ↦ NaN ↦ `none`), `Date` parsed by `pd.to_datetime` to the midnight
Timestamp (nanoseconds). -/
structure StoredEntry where
  name : Option String
  date : Int
  skillFocus : Option String
  hoursPracticed : ℚ
  progressDescription : Option String
  challengesFaced : Option String
  commitmentCheck : Option String
  additionalComments : Option String
deriving DecidableEq

/-- The program state: the backing CSV file and the session-state names
list (line 22-23; `none` models a NaN element of that Python list). -/
structure StoreState where
  file : List FileRow
  namesList : List (Option String)
deriving DecidableEq

/-- The default `na_values` sentinels of `pandas.read_csv`: a cell holding
any of these strings (the empty cell included) is parsed as NaN. -/
def naValues : List String :=
  ["", "#N/A", "#N/A N/A", "#NA", "-1.#IND", "-1.#QNAN", "-NaN", "-nan",
    "1.#IND", "1.#QNAN", "<NA>", "N/A", "NA", "NULL", "NaN", "None", "n/a",
    "nan", "null"]

/-- How `read_csv` parses one text cell of an object-dtype column: the
default NA sentinels become NaN, every other cell stays the exact
string. -/
def parseCell (c : String) : Option String :=
  if naValues.contains c then none else some c

/-- Characters that can occur in a cell `read_csv` may convert during
column dtype inference: digits, sign, decimal point, exponent marker,
whitespace, and the letters of the special tokens `inf` / `Infinity` /
`nan` / `True` / `False` in any letter case.  A cell containing any
character outside this set can never be converted to a number or a bool,
so its presence pins the whole column to object dtype. -/
def convertibleChar (ch : Char) : Bool :=
  ch.isDigit || ['+', '-', '.', ' ', '\t', 'e', 'E', 'i', 'I', 'n', 'N', 'f', 'F',
    't', 'T', 'y', 'Y', 'a', 'A', 'r', 'R', 'u', 'U', 'l', 'L', 's', 'S'].contains ch

/-- A cell that `read_csv` certainly preserves verbatim: not an NA
sentinel, and containing a character that defeats numeric/bool dtype
inference (so its column stays object dtype, every cell of which loads as
its exact string or NaN).  This is a conservative sufficient condition;
the theorems about loading restrict to such cells — the domain on which
this embedding of `read_csv` is exact. -/
def textSafe (c : String) : Bool :=
  !(naValues.contains c) && c.data.any (fun ch => !(convertibleChar ch))

/-- A stored record this embedding loads exactly as written: the name is
text-safe (a sentinel or all-numeric name column would load as NaN or as
numbers) and every other text cell is an NA sentinel or text-safe. -/
def rowSafe (r : FileRow) : Bool :=
  textSafe r.name
    && (naValues.contains r.skillFocus || textSafe r.skillFocus)
    && (naValues.contains r.progressDescription || textSafe r.progressDescription)
    && (naValues.contains r.challengesFaced || textSafe r.challengesFaced)
    && (naValues.contains r.commitmentCheck || textSafe r.commitmentCheck)
    && (naValues.contains r.additionalComments || textSafe r.additionalComments)

/-- How `to_csv` writes one text value: NaN and `""` both give an empty
cell. -/
def cellOf (o : Option String) : String := o.getD ""

/-- Parse one CSV record into a DataFrame row (`read_csv` plus the
`pd.to_datetime` of line 42). -/
def parseRow (r : FileRow) : StoredEntry :=
  { name := parseCell r.name
    date := r.date * nsPerDay
    skillFocus := parseCell r.skillFocus
    hoursPracticed := r.hoursPracticed
    progressDescription := parseCell r.progressDescription
    challengesFaced := parseCell r.challengesFaced
    commitmentCheck := parseCell r.commitmentCheck
    additionalComments := parseCell r.additionalComments }

/-- Write one loaded DataFrame row back to CSV (`to_csv` of line 54 on a
concat of the old frame): NaN text cells become empty cells, the midnight
Timestamp prints back as its calendar date, the double as its decimal
text. -/
def serializeStored (x : StoredEntry) : FileRow :=
  { name := cellOf x.name
    date := x.date / nsPerDay
    skillFocus := cellOf x.skillFocus
    hoursPracticed := x.hoursPracticed
    progressDescription := cellOf x.progressDescription
    challengesFaced := cellOf x.challengesFaced
    commitmentCheck := cellOf x.commitmentCheck
    additionalComments := cellOf x.additionalComments }

/-- Write a submitted form entry to CSV (line 213: the date is written with
`strftime` as `YYYY-MM-DD`; text fields are the submitted strings). -/
def serializeEntry (entry_data : EntryData) : FileRow :=
  { name := entry_data.name
    date := entry_data.date
    skillFocus := entry_data.skillFocus
    hoursPracticed := entry_data.hoursPracticed
    progressDescription := entry_data.progressDescription
    challengesFaced := entry_data.challengesFaced
    commitmentCheck := entry_data.commitmentCheck
    additionalComments := entry_data.additionalComments }

/-- The DataFrame row a freshly submitted entry becomes after it is saved
and loaded again. -/
def storedOf (entry_data : EntryData) : StoredEntry :=
  parseRow (serializeEntry entry_data)

/-- Python `sorted(set-like list)` over values with a linear order:
duplicates removed, result ascending.  (`Series.unique` keeps first
occurrences and `sorted` then orders them; since the result is sorted, the
occurrence order of the intermediate list is immaterial.) -/
def sortedUnique {α : Type} [DecidableEq α] [LinearOrder α] (xs : List α) : List α :=
  xs.dedup.mergeSort (fun a b => decide (a ≤ b))

/-! ## Entry Store (`load_data`, `save_entry`, lines 37-56)

`load_data` wraps everything in `try/except` returning an empty DataFrame
on any failure.  With the file itself well-formed (the `FileRow` level),
the one failure mode left inside the `try` is line 44:
`sorted(df['Name'].unique().tolist())` raises `TypeError` when the parsed
name column mixes strings and NaN (Python cannot compare them); the
`except` then yields an empty DataFrame and the names list is *not*
refreshed.  An all-NaN column sorts fine (`sorted([nan])`), giving
`names_list = [nan]`.  The names refresh only runs under
`if not df.empty`. -/

/-- The collection `load_data` returns, as a function of the file alone. -/
def load_collection (file : List FileRow) : List StoredEntry :=
  if file.isEmpty then []
  else
    let coll := file.map parseRow
    let ns := coll.map (fun x => x.name)
    if ns.any (fun o => o.isNone) && ns.any (fun o => o.isSome) then []
    else coll

/-- `load_data` (lines 37-47): returns the loaded collection and the
updated state (the file is read only; the session names list is refreshed
when the frame is nonempty and the `sorted` call succeeds).  Text cells
are parsed by `parseCell`; column-level dtype inference (an all-numeric
text column loading as numbers rather than strings) is outside this
definition and excluded through the `textSafe`/`rowSafe` hypotheses of
every theorem that loads a file. -/
def load_data (s : StoreState) : List StoredEntry × StoreState :=
  if s.file.isEmpty then ([], s)
  else
    let coll := s.file.map parseRow
    let ns := coll.map (fun x => x.name)
    if ns.any (fun o => o.isNone) && ns.any (fun o => o.isSome) then ([], s)
    else if ns.all (fun o => o.isNone) then
      (coll, { s with namesList := [none] })
    else
      (coll, { s with namesList := (sortedUnique (ns.filterMap id)).map some })

/-- `save_entry` (lines 49-56): load the current collection, prepend the
new entry, rewrite the whole file, then refresh the session names list
from the updated frame.  The names there are the in-memory values
(the new entry's raw string and the loaded `Option String` names); if that
list mixes strings and NaN the `sorted` on line 56 raises *after* the file
was already rewritten, so the file is updated and the names list is not. -/
def save_entry (entry_data : EntryData) (s : StoreState) : StoreState :=
  let df := (load_data s).1
  let newFile := serializeEntry entry_data :: df.map serializeStored
  let updatedNames : List (Option String) := some entry_data.name :: df.map (fun x => x.name)
  { file := newFile
    namesList :=
      if updatedNames.any (fun o => o.isNone) && updatedNames.any (fun o => o.isSome) then
        s.namesList
      else (sortedUnique (updatedNames.filterMap id)).map some }

/-- Validation of the submit handler (line 207):
`all([name, date, skill_focus, hours, progress_description, commitment])`
under Python truthiness.  `date` is a `datetime.date`, which is always
truthy, so it imposes no condition; `hours` is a float, so the check
treats `0.0` as missing. -/
def validEntry (entry_data : EntryData) : Bool :=
  entry_data.name != "" && entry_data.skillFocus != ""
    && entry_data.hoursPracticed != 0 && entry_data.progressDescription != ""
    && entry_data.commitmentCheck != ""

/-- The submit handler (lines 205-224): on validation failure show a
blocking error (`false`) and leave the state untouched; otherwise save. -/
def submit_op (entry_data : EntryData) (s : StoreState) : Bool × StoreState :=
  if validEntry entry_data then (true, save_entry entry_data s) else (false, s)

/-! ## Time-window utilities and aggregation engine (lines 58-78, 296-334) -/

/-- `get_week_range` (lines 58-62): subtract `weekday` whole days, add six
whole days.  The time-of-day of the argument is carried into both
boundaries (the source never normalizes it). -/
def get_week_range (ts : Int) : Int × Int :=
  let start := ts - pyWeekday ts * nsPerDay
  (start, start + 6 * nsPerDay)

/-- One row's filter condition in `calculate_weekly_hours` (lines 72-76):
exact name match and `week_start ≤ Date ≤ week_end`. -/
def qualifiesWeekly (x : StoredEntry) (user_name : String) (now : Int) : Bool :=
  x.name == some user_name
    && decide ((get_week_range now).1 ≤ x.date)
    && decide (x.date ≤ (get_week_range now).2)

/-- `calculate_weekly_hours` (lines 64-78), with `pd.Timestamp.now()`
passed in as `now`. -/
def calculate_weekly_hours (df : List StoredEntry) (user_name : String) (now : Int) : ℚ :=
  if df.isEmpty then 0
  else ((df.filter (fun x => qualifiesWeekly x user_name now)).map
    (fun x => x.hoursPracticed)).sum

/-- The user filter of line 243: `df[df['Name'] == selected_user]`
(a NaN name never equals a string). -/
def filterByName (df : List StoredEntry) (selected_user : String) : List StoredEntry :=
  df.filter (fun x => x.name == some selected_user)

/-- `groupby('Skill Focus')['Hours Practiced'].sum()` followed by
`sort_values(ascending=False)` (line 309): group keys are the distinct
skill values (groupby drops NaN keys), first listed ascending by key, then
stably sorted by descending total.  (pandas' default quicksort leaves the
order of equal totals unspecified; this model realizes the spec's
determinization, ties by skill-name order.) -/
def skill_hours (df : List StoredEntry) : List (String × ℚ) :=
  let keys := sortedUnique (df.filterMap (fun x => x.skillFocus))
  let grouped := keys.map (fun k =>
    (k, ((df.filter (fun x => x.skillFocus == some k)).map
      (fun x => x.hoursPracticed)).sum))
  grouped.mergeSort (fun a b => decide (b.2 ≤ a.2))

/-- `groupby('Date')['Hours Practiced'].sum()` (line 112): per-day totals,
keys ascending. -/
def daily_hours (df : List StoredEntry) : List (Int × ℚ) :=
  (sortedUnique (df.map (fun x => x.date))).map (fun d =>
    (d, ((df.filter (fun x => x.date == d)).map (fun x => x.hoursPracticed)).sum))

/-- Earliest `Date` of a nonempty frame. -/
def minDate (x : StoredEntry) (df : List StoredEntry) : Int :=
  df.foldl (fun m e => min m e.date) x.date

/-- Latest `Date` of a nonempty frame. -/
def maxDate (x : StoredEntry) (df : List StoredEntry) : Int :=
  df.foldl (fun m e => max m e.date) x.date

/-- Total hours of the entries falling in calendar month `m`. -/
def monthSum (df : List StoredEntry) (m : Int) : ℚ :=
  ((df.filter (fun x => monthOf x.date == m)).map (fun x => x.hoursPracticed)).sum

/-- `set_index('Date').resample('M')['Hours Practiced'].sum()` (line 325):
pandas resampling produces one month-end bin for *every* calendar month
from the month of the earliest date to the month of the latest date, the
sum over an empty bin being 0.  Months are labelled by their index
(`monthOf`), a faithful relabelling of the month-end dates pandas uses.
On an empty (datetime-indexed) frame the result is empty. -/
def monthly_hours : List StoredEntry → List (Int × ℚ)
  | [] => []
  | x :: df =>
    let lo := monthOf (minDate x df)
    let hi := monthOf (maxDate x df)
    (List.range (hi - lo + 1).toNat).map (fun (i : Nat) =>
      (lo + (i : Int), monthSum (x :: df) (lo + (i : Int))))

/-- The three metrics of lines 296-305: total hours, session count,
distinct skill count (`Series.unique` keeps NaN as a value, so a NaN
skill counts as one distinct value). -/
def countsOf (df : List StoredEntry) : ℚ × Nat × Nat :=
  ((df.map (fun x => x.hoursPracticed)).sum, df.length,
    (df.map (fun x => x.skillFocus)).dedup.length)

/-! ## Helper lemmas -/

lemma load_data_fst (s : StoreState) : (load_data s).1 = load_collection s.file := by
  simp only [load_data, load_collection, apply_ite Prod.fst, ite_self]

lemma load_data_file (s : StoreState) : ((load_data s).2).file = s.file := by
  simp only [load_data, apply_ite (fun p : List StoredEntry × StoreState => p.2.file), ite_self]

/-! ## C9: load is read-only and deterministic in the file contents -/

/-- C9: for every state, `load_data` leaves the backing file untouched,
and a second `load_data` with no intervening `save_entry` returns the same
collection as the first. -/
theorem load_twice_same_collection (s : StoreState) :
    ((load_data s).2).file = s.file ∧
    (load_data ((load_data s).2)).1 = (load_data s).1 := by
  refine ⟨load_data_file s, ?_⟩
  rw [load_data_fst, load_data_fst, load_data_file]

/-! ## C4: validation failure discards the submission -/

/-- C4: when any required field is empty (the Python `all([...])` check of
line 207, in which `0.0` hours and empty strings are falsy), the submit
handler reports a validation error, does not call `save_entry`, and the
backing file (in particular its entry count) is unchanged. -/
theorem submit_rejects_missing_required (entry_data : EntryData) (s : StoreState)
    (h : entry_data.name = "" ∨ entry_data.skillFocus = "" ∨ entry_data.hoursPracticed = 0
      ∨ entry_data.progressDescription = "" ∨ entry_data.commitmentCheck = "") :
    submit_op entry_data s = (false, s) ∧
    ((submit_op entry_data s).2).file.length = s.file.length := by
  have hv : validEntry entry_data = false := by
    rcases h with h | h | h | h | h <;> simp [validEntry, h]
  simp [submit_op, hv]

def c4Entry : EntryData :=
  ⟨"", 19786, "Guitar", 1, "practiced scales", "", "Good - Met Goals", ""⟩

def c4State : StoreState :=
  ⟨[⟨"Ava", 19786, "Guitar", 2, "practiced scales", "", "Good - Met Goals", ""⟩], []⟩

/-- C4 witness: a concrete submission with an empty name against a
one-entry file is rejected and the file keeps its single entry. -/
theorem submit_rejects_missing_required_witness :
    submit_op c4Entry c4State = (false, c4State) ∧
    ((submit_op c4Entry c4State).2).file.length = c4State.file.length :=
  submit_rejects_missing_required c4Entry c4State (Or.inl rfl)

/-! ## C10: zero hours is treated as a missing field -/

/-- C10: Python truthiness makes `hours == 0.0` falsy in the line-207
check, so a submission with exactly zero hours is rejected and never
written, although the form admits the value 0.0 (its `min_value`). -/
theorem zero_hours_submission_rejected (entry_data : EntryData) (s : StoreState)
    (h : entry_data.hoursPracticed = 0) :
    submit_op entry_data s = (false, s) ∧
    ((submit_op entry_data s).2).file = s.file := by
  have hv : validEntry entry_data = false := by simp [validEntry, h]
  simp [submit_op, hv]

def c10Entry : EntryData :=
  ⟨"Ava", 19786, "Guitar", 0, "practiced scales", "", "Good - Met Goals", ""⟩

/-- C10 witness: an otherwise fully populated submission with 0.0 hours is
rejected and the (empty) file stays empty. -/
theorem zero_hours_submission_rejected_witness :
    submit_op c10Entry ⟨[], []⟩ = (false, ⟨[], []⟩) ∧
    ((submit_op c10Entry ⟨[], []⟩).2).file = (⟨[], []⟩ : StoreState).file :=
  zero_hours_submission_rejected c10Entry ⟨[], []⟩ rfl

/-! ## C5: the week window is Monday-anchored -/

/-- C5: `get_week_range` (a pure function of its argument) returns a pair
whose second component is exactly six days after the first; the first
component falls on the Monday of the calendar week containing the input
(its weekday is 0 and its date is the input's date moved back by the
input's weekday, which lies in 0..6), and the second falls on the
following Sunday (weekday 6). -/
theorem get_week_range_monday_anchored (ts : Int) :
    (get_week_range ts).2 = (get_week_range ts).1 + 6 * nsPerDay ∧
    pyWeekday (get_week_range ts).1 = 0 ∧
    pyWeekday (get_week_range ts).2 = 6 ∧
    dayOf (get_week_range ts).1 = dayOf ts - pyWeekday ts ∧
    dayOf (get_week_range ts).2 = dayOf ts - pyWeekday ts + 6 ∧
    0 ≤ pyWeekday ts ∧ pyWeekday ts ≤ 6 := by
  have hw : get_week_range ts
      = (ts - ((ts / 86400000000000 + 3) % 7) * 86400000000000,
         ts - ((ts / 86400000000000 + 3) % 7) * 86400000000000 + 6 * 86400000000000) := rfl
  simp only [hw, pyWeekday, dayOf, nsPerDay]
  refine ⟨trivial, ?_, ?_, ?_, ?_, ?_, ?_⟩ <;> omega

/-! ## C6: aggregations on the empty collection and on unmatched names -/

/-- C6: filtering by a name matching no entry yields the empty frame, so
every aggregation behaves as on the empty collection: weekly hours are 0
(this also covers the empty-collection guard of line 66), and the
per-skill, per-day, per-month and count views of the filtered frame, like
those of the empty frame, are the zero/empty forms, none raising an
error. -/
theorem aggregations_zero_on_empty_or_unmatched (df : List StoredEntry) (u : String)
    (now : Int) (h : ∀ x ∈ df, x.name ≠ some u) :
    calculate_weekly_hours df u now = 0 ∧
    filterByName df u = [] ∧
    skill_hours (filterByName df u) = [] ∧
    daily_hours (filterByName df u) = [] ∧
    monthly_hours (filterByName df u) = [] ∧
    countsOf (filterByName df u) = (0, 0, 0) ∧
    skill_hours ([] : List StoredEntry) = [] ∧
    daily_hours ([] : List StoredEntry) = [] ∧
    monthly_hours ([] : List StoredEntry) = [] ∧
    countsOf ([] : List StoredEntry) = (0, 0, 0) := by
  have hfil : filterByName df u = [] := by
    rw [filterByName, List.filter_eq_nil_iff]
    intro x hx
    simp [h x hx]
  have hskill : skill_hours ([] : List StoredEntry) = [] := by
    simp [skill_hours, sortedUnique]
  have hdaily : daily_hours ([] : List StoredEntry) = [] := by
    simp [daily_hours, sortedUnique]
  have hweek : calculate_weekly_hours df u now = 0 := by
    rw [calculate_weekly_hours]
    split
    · rfl
    · have hnil : df.filter (fun x => qualifiesWeekly x u now) = [] := by
        rw [List.filter_eq_nil_iff]
        intro x hx
        simp [qualifiesWeekly, h x hx]
      rw [hnil]
      rfl
  exact ⟨hweek, hfil, by rw [hfil]; exact hskill, by rw [hfil]; exact hdaily,
    by rw [hfil]; rfl, by rw [hfil]; rfl, hskill, hdaily, rfl, rfl⟩

def c6Entry : StoredEntry :=
  ⟨some "Ava", dateTs 2024 3 4, some "Guitar", 2, some "practiced scales", none,
    some "Good - Met Goals", none⟩

/-- C6 witness: against a one-entry frame for Ava, filtering by the absent
name Zoe gives weekly hours 0 and the empty filtered frame. -/
theorem aggregations_zero_on_empty_or_unmatched_witness :
    calculate_weekly_hours [c6Entry] "Zoe" (dateTs 2024 3 6) = 0 ∧
    filterByName [c6Entry] "Zoe" = [] :=
  ⟨(aggregations_zero_on_empty_or_unmatched [c6Entry] "Zoe" (dateTs 2024 3 6)
      (by decide)).1,
    (aggregations_zero_on_empty_or_unmatched [c6Entry] "Zoe" (dateTs 2024 3 6)
      (by decide)).2.1⟩

/-! ## C7: weekly hours monotone in qualifying entries, invariant otherwise -/

/-- C7: adding one entry with nonnegative hours (the data-model invariant
`0.0 ≤ hours`) never decreases `calculate_weekly_hours`, and adding an
entry that does not qualify (different name, or date outside the window)
leaves it unchanged. -/
theorem weekly_hours_monotone_invariant (df : List StoredEntry) (x : StoredEntry)
    (u : String) (now : Int) (h0 : 0 ≤ x.hoursPracticed) :
    calculate_weekly_hours df u now ≤ calculate_weekly_hours (x :: df) u now ∧
    (qualifiesWeekly x u now = false →
      calculate_weekly_hours (x :: df) u now = calculate_weekly_hours df u now) := by
  cases df with
  | nil =>
    constructor
    · cases hq : qualifiesWeekly x u now <;>
        simp [calculate_weekly_hours, hq, h0]
    · intro hq
      simp [calculate_weekly_hours, hq]
  | cons y ys =>
    constructor
    · cases hq : qualifiesWeekly x u now
      · simp [calculate_weekly_hours, List.filter_cons, hq]
      · simp only [calculate_weekly_hours, List.isEmpty_cons, if_false,
          List.filter_cons, hq, if_true, List.map_cons, List.sum_cons]
        exact le_add_of_nonneg_left h0
    · intro hq
      simp [calculate_weekly_hours, List.filter_cons, hq]

def c7Base : StoredEntry :=
  ⟨some "Ava", dateTs 2024 3 4, some "Guitar", 2, some "practiced scales", none,
    some "Good - Met Goals", none⟩

def c7New : StoredEntry :=
  ⟨some "Bob", dateTs 2024 3 5, some "Chess", 1, some "openings", none,
    some "Needs Improvement", none⟩

/-- C7 witness: prepending Bob's entry neither decreases nor changes Ava's
weekly hours for the week of 2024-03-06. -/
theorem weekly_hours_monotone_invariant_witness :
    calculate_weekly_hours [c7Base] "Ava" (dateTs 2024 3 6)
      ≤ calculate_weekly_hours [c7New, c7Base] "Ava" (dateTs 2024 3 6) ∧
    calculate_weekly_hours [c7New, c7Base] "Ava" (dateTs 2024 3 6)
      = calculate_weekly_hours [c7Base] "Ava" (dateTs 2024 3 6) := by
  have h := weekly_hours_monotone_invariant [c7Base] c7New "Ava" (dateTs 2024 3 6)
    (by norm_num [c7New])
  exact ⟨h.1, h.2 (by decide)⟩

/-! ## C1: the spec scenario, and the week-start time-of-day bug -/

def c1Entry1 : StoredEntry :=
  ⟨some "Ava", dateTs 2024 3 4, some "Guitar", 2, some "practiced scales", none,
    some "Good - Met Goals", none⟩

def c1Entry2 : StoredEntry :=
  ⟨some "Ava", dateTs 2024 3 5, some "Guitar", 3/2, some "chords", some "tuning issues",
    some "Fair - Partial Progress", none⟩

/-- C1 (failing-input evaluation): 2024-03-04 is the Monday of the week of
2024-03-06.  `get_week_range` subtracts whole days from `now` without
normalizing the time-of-day, so with `now` at *noon* on 2024-03-06 the
week start is Monday 12:00 and the entry dated Monday (midnight) fails
`Date >= week_start`: the spec scenario then yields 1.5, not the claimed
3.5.  Only at midnight `now` does the scenario give 3.5. -/
theorem weekly_hours_time_of_day_failing_input :
    pyWeekday (dateTs 2024 3 4) = 0 ∧
    calculate_weekly_hours [c1Entry1, c1Entry2] "Ava" (dateTs 2024 3 6 + nsPerDay / 2)
      = 3/2 ∧
    calculate_weekly_hours [c1Entry1, c1Entry2] "Ava" (dateTs 2024 3 6) = 7/2 := by
  have h1 : qualifiesWeekly c1Entry1 "Ava" (dateTs 2024 3 6 + nsPerDay / 2) = false := by
    decide
  have h2 : qualifiesWeekly c1Entry2 "Ava" (dateTs 2024 3 6 + nsPerDay / 2) = true := by
    decide
  have h3 : qualifiesWeekly c1Entry1 "Ava" (dateTs 2024 3 6) = true := by decide
  have h4 : qualifiesWeekly c1Entry2 "Ava" (dateTs 2024 3 6) = true := by decide
  refine ⟨by decide, ?_, ?_⟩
  · simp [calculate_weekly_hours, List.filter_cons, h1, h2]
    norm_num [c1Entry2]
  · simp [calculate_weekly_hours, List.filter_cons, h3, h4]
    norm_num [c1Entry1, c1Entry2]

/-! ## C2: resample('M') synthesizes empty month buckets -/

def c2Jan : StoredEntry :=
  ⟨some "Ava", dateTs 2024 1 15, some "Guitar", 1, some "scales", none,
    some "Good - Met Goals", none⟩

def c2Mar : StoredEntry :=
  ⟨some "Ava", dateTs 2024 3 10, some "Guitar", 2, some "chords", none,
    some "Good - Met Goals", none⟩

/-- C2 counterexample: with entries dated 2024-01-15 and 2024-03-10 only,
the monthly view contains a bucket for 2024-02 (month index 24289) with
total 0, although no entry falls in that month — pandas resampling
synthesizes the empty month, contradicting the claim that it does not. -/
theorem monthly_hours_synthesizes_empty_month :
    monthOf c2Jan.date = 24288 ∧ monthOf c2Mar.date = 24290 ∧
    (24289, (0 : ℚ)) ∈ monthly_hours [c2Jan, c2Mar] := by
  have hlo : monthOf (minDate c2Jan [c2Mar]) = 24288 := by decide
  have hhi : monthOf (maxDate c2Jan [c2Mar]) = 24290 := by decide
  refine ⟨by decide, by decide, ?_⟩
  have hdef : monthly_hours [c2Jan, c2Mar]
      = (List.range ((monthOf (maxDate c2Jan [c2Mar]) - monthOf (minDate c2Jan [c2Mar])
          + 1).toNat)).map
          (fun (i : Nat) => (monthOf (minDate c2Jan [c2Mar]) + (i : Int),
            monthSum [c2Jan, c2Mar] (monthOf (minDate c2Jan [c2Mar]) + (i : Int)))) := rfl
  rw [hdef, List.mem_map]
  refine ⟨1, by rw [List.mem_range]; omega, ?_⟩
  have hidx : monthOf (minDate c2Jan [c2Mar]) + ((1 : Nat) : Int) = 24289 := by decide
  rw [hidx]
  have hsum : monthSum [c2Jan, c2Mar] 24289 = 0 := by decide
  rw [hsum]

/-- C2 amended: on a nonempty collection, the monthly view has exactly one
bucket for *every* calendar month from the month of the earliest entry
date to the month of the latest entry date inclusive (months with no
entries included, with total 0), each bucket holding the summed hours of
the entries in that month. -/
theorem monthly_hours_buckets (x : StoredEntry) (df : List StoredEntry) (m : Int) (q : ℚ) :
    (m, q) ∈ monthly_hours (x :: df) ↔
      (monthOf (minDate x df) ≤ m ∧ m ≤ monthOf (maxDate x df) ∧
        q = monthSum (x :: df) m) := by
  have hdef : monthly_hours (x :: df)
      = (List.range ((monthOf (maxDate x df) - monthOf (minDate x df) + 1).toNat)).map
          (fun (i : Nat) => (monthOf (minDate x df) + (i : Int),
            monthSum (x :: df) (monthOf (minDate x df) + (i : Int)))) := rfl
  rw [hdef, List.mem_map]
  constructor
  · rintro ⟨i, hi, hfi⟩
    rw [List.mem_range] at hi
    have h1 : monthOf (minDate x df) + (i : Int) = m := congrArg Prod.fst hfi
    have h2 : monthSum (x :: df) (monthOf (minDate x df) + (i : Int)) = q :=
      congrArg Prod.snd hfi
    refine ⟨by omega, by omega, ?_⟩
    rw [← h2, h1]
  · rintro ⟨h1, h2, h3⟩
    refine ⟨(m - monthOf (minDate x df)).toNat, by rw [List.mem_range]; omega, ?_⟩
    have hm : monthOf (minDate x df) + (((m - monthOf (minDate x df)).toNat : Nat) : Int)
        = m := by omega
    rw [hm, h3]

/-! ## C3: append-then-load round trip -/

lemma cellOf_parseCell (c : String) (h : c ∉ naValues) : cellOf (parseCell c) = c := by
  simp [parseCell, cellOf, h]

lemma parseCell_cellOf (c : String) :
    parseCell (cellOf (parseCell c)) = parseCell c := by
  have h0 : ("" : String) ∈ naValues := by decide
  by_cases hc : c ∈ naValues <;> simp [parseCell, cellOf, hc, h0]

lemma textSafe_not_na (c : String) (h : textSafe c = true) : c ∉ naValues := by
  simp [textSafe] at h
  exact h.1

lemma rowSafe_name (r : FileRow) (h : rowSafe r = true) : textSafe r.name = true := by
  simp only [rowSafe, Bool.and_eq_true] at h
  exact h.1.1.1.1.1

lemma parseRow_serialize_roundtrip (r : FileRow) :
    parseRow (serializeStored (parseRow r)) = parseRow r := by
  have hd : r.date * nsPerDay / nsPerDay = r.date :=
    Int.mul_ediv_cancel r.date (by norm_num [nsPerDay])
  simp [parseRow, serializeStored, parseCell_cellOf, hd]

lemma filterMap_parseCell (l : List FileRow) (hn : ∀ r ∈ l, r.name ∉ naValues) :
    (l.map (fun r => parseCell r.name)).filterMap id = l.map (fun r => r.name) := by
  induction l with
  | nil => rfl
  | cons r rest ih =>
    have h1 : parseCell r.name = some r.name := by
      simp [parseCell, hn r (List.mem_cons_self r rest)]
    simp [h1, ih (fun t ht => hn t (List.mem_cons_of_mem r ht))]

lemma parse_names_no_none (l : List FileRow) (hn : ∀ r ∈ l, r.name ∉ naValues) :
    (l.map (fun r => parseCell r.name)).any (fun o => o.isNone) = false := by
  rw [List.any_eq_false]
  intro o ho
  rw [List.mem_map] at ho
  obtain ⟨t, ht, rfl⟩ := ho
  simp [parseCell, hn t ht]

/-- With no name cell an NA sentinel (in particular none empty),
`load_data` parses the whole file and refreshes the names list whenever the
frame is nonempty. -/
lemma load_data_clean (s : StoreState) (hn : ∀ r ∈ s.file, r.name ∉ naValues) :
    load_data s = (s.file.map parseRow,
      if s.file.isEmpty then s
      else { s with
        namesList := (sortedUnique (s.file.map (fun r => r.name))).map some }) := by
  have key : (s.file.map parseRow).map (fun x => x.name)
      = s.file.map (fun r => parseCell r.name) := by
    rw [List.map_map]
    rfl
  by_cases hfe : s.file.isEmpty
  · have h0 : s.file = [] := List.isEmpty_iff.mp hfe
    simp [load_data, h0]
  · have hfeb : s.file.isEmpty = false := Bool.eq_false_iff.mpr hfe
    obtain ⟨r, rest, hcons⟩ : ∃ r rest, s.file = r :: rest := by
      cases hc : s.file with
      | nil => rw [hc] at hfeb; simp at hfeb
      | cons a b => exact ⟨a, b, rfl⟩
    have hno : (s.file.map (fun r => parseCell r.name)).any (fun o => o.isNone) = false :=
      parse_names_no_none s.file hn
    have hall : (s.file.map (fun r => parseCell r.name)).all (fun o => o.isNone) = false := by
      rw [hcons]
      have hr : parseCell r.name = some r.name := by
        simp [parseCell, hn r (by rw [hcons]; exact List.mem_cons_self r rest)]
      simp [hr]
    simp only [load_data, hfeb, Bool.false_eq_true, if_false, key, hno, Bool.false_and,
      hall]
    rw [filterMap_parseCell s.file hn]

/-- C3 (amended): appending a validated entry whose required text fields
are text-safe (no NA sentinels, inference-proof) to a store of text-safe
records, then reloading, returns exactly the new stored entry followed by
the previous collection.  Every required text field round-trips
byte-for-byte (as `some` of the submitted string), hours round-trip
exactly, and the stored Timestamp's date part equals the submitted
calendar date; an *optional* text field round-trips byte-for-byte when it
is text-safe, while an empty one is stored as an empty cell and loads back
as NaN. -/
theorem append_then_load_roundtrip (entry_data : EntryData) (s : StoreState)
    (_hv : validEntry entry_data = true)
    (hsafe : textSafe entry_data.name = true ∧ textSafe entry_data.skillFocus = true
      ∧ textSafe entry_data.progressDescription = true
      ∧ textSafe entry_data.commitmentCheck = true)
    (_hopt : (entry_data.challengesFaced = "" ∨ textSafe entry_data.challengesFaced = true)
      ∧ (entry_data.additionalComments = ""
        ∨ textSafe entry_data.additionalComments = true))
    (hfile : ∀ r ∈ s.file, rowSafe r = true) :
    (load_data (save_entry entry_data s)).1 = storedOf entry_data :: (load_data s).1 ∧
    (storedOf entry_data).name = some entry_data.name ∧
    (storedOf entry_data).skillFocus = some entry_data.skillFocus ∧
    (storedOf entry_data).progressDescription = some entry_data.progressDescription ∧
    (storedOf entry_data).commitmentCheck = some entry_data.commitmentCheck ∧
    (storedOf entry_data).hoursPracticed = entry_data.hoursPracticed ∧
    dayOf (storedOf entry_data).date = entry_data.date ∧
    (textSafe entry_data.challengesFaced = true →
      (storedOf entry_data).challengesFaced = some entry_data.challengesFaced) ∧
    (entry_data.challengesFaced = "" → (storedOf entry_data).challengesFaced = none) ∧
    (textSafe entry_data.additionalComments = true →
      (storedOf entry_data).additionalComments = some entry_data.additionalComments) ∧
    (entry_data.additionalComments = ""
      → (storedOf entry_data).additionalComments = none) := by
  obtain ⟨hsn, hss, hsp, hsc⟩ := hsafe
  have hnm := textSafe_not_na _ hsn
  have hns := textSafe_not_na _ hss
  have hnp := textSafe_not_na _ hsp
  have hnc := textSafe_not_na _ hsc
  have hce : ("" : String) ∈ naValues := by decide
  have hn : ∀ r ∈ s.file, r.name ∉ naValues := fun r hr =>
    textSafe_not_na _ (rowSafe_name r (hfile r hr))
  have hdf : (load_data s).1 = s.file.map parseRow := by rw [load_data_clean s hn]
  have hsave : (save_entry entry_data s).file
      = serializeEntry entry_data :: (s.file.map parseRow).map serializeStored := by
    simp [save_entry, hdf]
  have hn2 : ∀ r ∈ (save_entry entry_data s).file, r.name ∉ naValues := by
    rw [hsave]
    intro r hr
    rcases List.mem_cons.mp hr with h | h
    · rw [h]
      exact hnm
    · rw [List.mem_map] at h
      obtain ⟨t, ht, rfl⟩ := h
      rw [List.mem_map] at ht
      obtain ⟨u, hu, rfl⟩ := ht
      show cellOf (parseCell u.name) ∉ naValues
      rw [cellOf_parseCell u.name (hn u hu)]
      exact hn u hu
  have hmain : (load_data (save_entry entry_data s)).1
      = storedOf entry_data :: (load_data s).1 := by
    rw [load_data_clean _ hn2, hsave, hdf]
    simp only [List.map_cons, List.map_map]
    refine congrArg (fun l => storedOf entry_data :: l) ?_
    refine List.map_congr_left ?_
    intro u hu
    exact parseRow_serialize_roundtrip u
  refine ⟨hmain, ?_, ?_, ?_, ?_, rfl, ?_, ?_, ?_, ?_, ?_⟩
  · simp [storedOf, parseRow, serializeEntry, parseCell, hnm]
  · simp [storedOf, parseRow, serializeEntry, parseCell, hns]
  · simp [storedOf, parseRow, serializeEntry, parseCell, hnp]
  · simp [storedOf, parseRow, serializeEntry, parseCell, hnc]
  · simp only [storedOf, parseRow, serializeEntry, dayOf, nsPerDay]
    omega
  · intro h
    simp [storedOf, parseRow, serializeEntry, parseCell, textSafe_not_na _ h]
  · intro h
    simp [storedOf, parseRow, serializeEntry, parseCell, h, hce]
  · intro h
    simp [storedOf, parseRow, serializeEntry, parseCell, textSafe_not_na _ h]
  · intro h
    simp [storedOf, parseRow, serializeEntry, parseCell, h, hce]

def c3EmptyOpt : EntryData :=
  ⟨"Ava", 19786, "Guitar", 2, "practiced scales", "", "Good - Met Goals", ""⟩

def c3Sentinel : EntryData :=
  ⟨"Ava", 19786, "NA", 2, "practiced scales", "", "Good - Met Goals", ""⟩

/-- C3 counterexample: an optional field submitted as the empty string
loads back as NaN (`none`), not as the submitted string; and a *required*
field holding the pandas NA sentinel "NA" (which passes validation — it is
non-empty) also loads back as NaN.  In both cases the round trip is not
byte-for-byte. -/
theorem roundtrip_empty_optional_is_nan :
    (load_data (save_entry c3EmptyOpt ⟨[], []⟩)).1 = [storedOf c3EmptyOpt] ∧
    (storedOf c3EmptyOpt).challengesFaced = none ∧
    (storedOf c3EmptyOpt).challengesFaced ≠ some c3EmptyOpt.challengesFaced ∧
    validEntry c3Sentinel = true ∧
    (storedOf c3Sentinel).skillFocus = none ∧
    (storedOf c3Sentinel).skillFocus ≠ some c3Sentinel.skillFocus := by
  exact ⟨rfl, rfl, by decide, by decide, rfl, by decide⟩

def c3Full : EntryData :=
  ⟨"Ava", 19786, "Guitar", 2, "practiced scales", "tuning issues",
    "Good - Met Goals", "felt good"⟩

/-- C3 witness: a fully populated text-safe entry appended to the empty
store loads back as exactly its stored form, with the name and the
(non-empty) challenges field preserved byte-for-byte. -/
theorem append_then_load_roundtrip_witness :
    (load_data (save_entry c3Full ⟨[], []⟩)).1 = storedOf c3Full :: (load_data ⟨[], []⟩).1 ∧
    (storedOf c3Full).name = some c3Full.name ∧
    (storedOf c3Full).challengesFaced = some c3Full.challengesFaced := by
  have h := append_then_load_roundtrip c3Full ⟨[], []⟩ (by decide) (by decide)
    (by decide) (by simp)
  exact ⟨h.1, h.2.1, h.2.2.2.2.2.2.2.1 (by decide)⟩

/-! ## C8: the known-names list -/

lemma sortedUnique_perm_dedup {α : Type} [DecidableEq α] [LinearOrder α] (xs : List α) :
    List.Perm (sortedUnique xs) xs.dedup :=
  List.mergeSort_perm xs.dedup _

lemma sortedUnique_mem {α : Type} [DecidableEq α] [LinearOrder α] (xs : List α) (a : α) :
    a ∈ sortedUnique xs ↔ a ∈ xs := by
  rw [(sortedUnique_perm_dedup xs).mem_iff, List.mem_dedup]

lemma sortedUnique_nodup {α : Type} [DecidableEq α] [LinearOrder α] (xs : List α) :
    (sortedUnique xs).Nodup :=
  ((sortedUnique_perm_dedup xs).nodup_iff).mpr (List.nodup_dedup xs)

lemma sortedUnique_sorted {α : Type} [DecidableEq α] [LinearOrder α] (xs : List α) :
    (sortedUnique xs).Sorted (fun a b => a ≤ b) := by
  have h := @List.sorted_mergeSort α (fun a b => decide (a ≤ b))
    (fun a b c hab hbc =>
      decide_eq_true (le_trans (of_decide_eq_true hab) (of_decide_eq_true hbc)))
    (fun a b => by rcases le_total a b with h | h <;> simp [h])
    xs.dedup
  exact h.imp (fun hab => of_decide_eq_true hab)

/-- C8 (amended): with every stored name text-safe (no NA sentinels, no
all-numeric name column) and a names list consistent with an empty file
(the states a clean store reaches), `load_data` refreshes the session
names list to the sorted unique names of the stored entries, and
`save_entry` refreshes it to the sorted unique names including the newly
appended one; the list is ascending, duplicate-free, and consists exactly
of the distinct (case-sensitively compared) name values. -/
theorem distinct_names_refreshed (s : StoreState) (entry_data : EntryData)
    (hn : ∀ r ∈ s.file, textSafe r.name = true)
    (hinv : s.file = [] → s.namesList = []) :
    ((load_data s).2).namesList
      = (sortedUnique (s.file.map (fun r => r.name))).map some ∧
    (save_entry entry_data s).namesList
      = (sortedUnique (entry_data.name :: s.file.map (fun r => r.name))).map some ∧
    some entry_data.name ∈ (save_entry entry_data s).namesList ∧
    (sortedUnique (entry_data.name :: s.file.map (fun r => r.name))).Sorted
      (fun a b => a ≤ b) ∧
    (sortedUnique (entry_data.name :: s.file.map (fun r => r.name))).Nodup ∧
    List.Perm (sortedUnique (entry_data.name :: s.file.map (fun r => r.name)))
      (entry_data.name :: s.file.map (fun r => r.name)).dedup := by
  have hn0 : ∀ r ∈ s.file, r.name ∉ naValues := fun r hr =>
    textSafe_not_na _ (hn r hr)
  have h1 : ((load_data s).2).namesList
      = (sortedUnique (s.file.map (fun r => r.name))).map some := by
    rw [load_data_clean s hn0]
    by_cases hfe : s.file.isEmpty
    · have h0 : s.file = [] := List.isEmpty_iff.mp hfe
      simp [hfe, h0, hinv h0, sortedUnique]
    · have hfeb : s.file.isEmpty = false := Bool.eq_false_iff.mpr hfe
      simp [hfeb]
  have hdf : (load_data s).1 = s.file.map parseRow := by rw [load_data_clean s hn0]
  have hno : (s.file.map (fun r => parseCell r.name)).any (fun o => o.isNone) = false :=
    parse_names_no_none s.file hn0
  have h2 : (save_entry entry_data s).namesList
      = (sortedUnique (entry_data.name :: s.file.map (fun r => r.name))).map some := by
    have key : (s.file.map parseRow).map (fun x => x.name)
        = s.file.map (fun r => parseCell r.name) := by
      rw [List.map_map]
      rfl
    have hfm : ((some entry_data.name
          :: s.file.map (fun r => parseCell r.name)).filterMap id : List String)
        = entry_data.name :: s.file.map (fun r => r.name) := by
      simp only [List.filterMap_cons, id_eq]
      rw [filterMap_parseCell s.file hn0]
    simp only [save_entry, hdf, key, List.any_cons, hno, Option.isNone_some,
      Bool.false_or, Bool.false_and, Bool.false_eq_true, if_false, hfm]
  have h3 : some entry_data.name ∈ (save_entry entry_data s).namesList := by
    rw [h2, List.mem_map]
    exact ⟨entry_data.name,
      (sortedUnique_mem _ _).mpr (List.mem_cons_self _ _), rfl⟩
  exact ⟨h1, h2, h3, sortedUnique_sorted _, sortedUnique_nodup _, sortedUnique_perm_dedup _⟩

def c8BadState : StoreState :=
  ⟨[⟨"NA", 19786, "Guitar", 2, "practiced scales", "", "Good - Met Goals", ""⟩,
    ⟨"Bob", 19787, "Chess", 1, "openings", "", "Needs Improvement", ""⟩], []⟩

/-- C8 counterexample: a stored name equal to the pandas NA sentinel "NA"
(which the form's validation accepts) parses to NaN; the name column then
mixes NaN with the string "Bob", the `sorted` on line 44 raises
`TypeError`, and `load_data` fails soft — it returns the empty frame and
does *not* refresh the names list, although the store holds the name
"Bob".  This refutes the claim that every load refreshes the set to the
sorted unique stored names. -/
theorem distinct_names_na_sentinel_no_refresh :
    ((load_data c8BadState).2).namesList = [] ∧
    (load_data c8BadState).1 = [] ∧
    ((load_data c8BadState).2).namesList
      ≠ (sortedUnique (c8BadState.file.map (fun r => r.name))).map some := by
  refine ⟨rfl, rfl, ?_⟩
  have h2 : some "Bob" ∈ (sortedUnique (c8BadState.file.map (fun r => r.name))).map some :=
    List.mem_map.mpr ⟨"Bob", (sortedUnique_mem _ _).mpr (by decide), rfl⟩
  intro heq
  rw [show ((load_data c8BadState).2).namesList = [] from rfl] at heq
  rw [← heq] at h2
  exact List.not_mem_nil _ h2

def c8State : StoreState :=
  ⟨[⟨"Bob", 19786, "Guitar", 2, "practiced scales", "", "Good - Met Goals", ""⟩],
    [some "Bob"]⟩

def c8Entry : EntryData :=
  ⟨"Ava", 19787, "Chess", 1, "openings", "", "Needs Improvement", ""⟩

/-- C8 witness: loading a one-entry store for Bob refreshes the names list
to the sorted unique stored names, and appending Ava refreshes it to a
list containing Ava. -/
theorem distinct_names_refreshed_witness :
    ((load_data c8State).2).namesList
      = (sortedUnique (c8State.file.map (fun r => r.name))).map some ∧
    some c8Entry.name ∈ (save_entry c8Entry c8State).namesList :=
  ⟨(distinct_names_refreshed c8State c8Entry (by decide) (by decide)).1,
    (distinct_names_refreshed c8State c8Entry (by decide) (by decide)).2.2.1⟩

end LogProgress
